import Mathlib

/-!
Shallow embedding of the G-code execution core of the RepRapFirmware fork
(src/GCodes.cpp, src/GCodes.h, src/FileStore.cpp).

Conventions of the embedding:
* machine floats are modelled as exact scalars over a linear ordered field `K`
  (instantiated with the rationals where the code uses only field operations,
  and with the reals where the C library `sqrtf` is involved);
* the fixed-size C arrays indexed by drive or stack slot become total
  functions out of `Nat`;
* external collaborators (the motion planner, the mass storage layer, the
  parsed GCodeBuffer) are passed in as explicit inputs;
* calls to `platform->Message` and friends become elements of the `Msg` type
  collected in an output list.
-/

namespace RRF

/-- Number of Cartesian axes (X, Y, Z); the firmware constant AXES. -/
def AXES : Nat := 3

/-- Total number of drives (axes plus extruders).  The constant is set in the
board file Pins.h which is not part of this tree; the initialiser macros in
src/Platform.h provide up to 9 entries.  None of the theorems below depend on
the exact value, only on it being at least AXES. -/
def DRIVES : Nat := 9

/-- Maximum depth of the machine-state stack; src/GCodes.h line 27:
const size_t STACK = 5. -/
def STACK : Nat := 5

/-- Messages emitted through platform->Message / MessageF, by call site. -/
inductive Msg where
  /-- GCodes.cpp:410 Push() stack overflow -/
  | pushOverflowError : Msg
  /-- GCodes.cpp:436 Pop() stack underflow -/
  | popUnderflowError : Msg
  /-- GCodes.cpp:485 attempting to extrude with no tool selected -/
  | noToolError : Msg
  /-- GCodes.cpp:508 wrong number of extruder drives for the selected tool -/
  | wrongDriveCountError : Msg
  /-- GCodes.cpp:546 resume moves are only allowed while the print is paused -/
  | resumeMoveError : Msg
  /-- GCodes.cpp:667 attempt to move the motors of a delta printer to absolute positions -/
  | deltaAbsoluteMotorReply : Msg
  /-- GCodes.cpp:677 attempt to move the head of a delta printer before homing the towers -/
  | deltaNotHomedReply : Msg
  /-- GCodes.cpp:807 macro file not found in neither /sys nor /macros -/
  | macroNotFoundError : Msg
  /-- GCodes.cpp:1203 Z probe warning: probe already triggered at start of probing move -/
  | probeAlreadyTriggeredWarning : Msg
  deriving DecidableEq

/-- One machine-state stack slot: the values that GCodes::Push stores at index
stackPointer into drivesRelativeStack, axesRelativeStack, feedrateStack,
extruderPositionStack, doingFileMacroStack and fileStack. -/
structure StackFrame (K : Type) where
  drivesRelative : Bool
  axesRelative : Bool
  feedrate : K
  extruderPositions : Nat → K
  doingFileMacroFlag : Bool
  /-- fileStack slot: abstract FileData handle, none when not live -/
  fileSlot : Option Nat

/-- pauseStatus values, src/GCodes.h enum class PauseStatus. -/
inductive PauseStatus where
  | notPaused | pausing | paused | resuming
  deriving DecidableEq

/-- The G-code source channels: the seven GCodeBuffer instances of
GCodes.h:171-177. -/
inductive Channel where
  | http | telnet | file | serial | aux | fileMacro | queued
  deriving DecidableEq

/-- The fields of class GCodes (src/GCodes.h) that the verified operations
touch.  moveBuffer has DRIVES+1 entries with the feed rate at index DRIVES. -/
structure GState (K : Type) where
  moveAvailable : Bool
  moveBuffer : Nat → K
  endStopsToCheck : Nat
  /-- 0 = normal, 1 = homing move, 2 = direct motor move -/
  moveType : Nat
  drivesRelative : Bool
  axesRelative : Bool
  distanceScale : K
  axisScaleFactors : Nat → K
  lastExtruderPosition : Nat → K
  axisIsHomed : Nat → Bool
  limitAxes : Bool
  stackPointer : Nat
  stack : Nat → StackFrame K
  doingFileMacroFlag : Bool
  /-- returningFromMacro of GCodes.h:205 -/
  returningFromMacro : Bool
  /-- macroSourceGCodeBuffer of GCodes.h:206 (none models nullptr) -/
  macroSource : Option Channel
  /-- fractionOfFilePrinted of GCodes.h:209 -/
  fractionOfFilePrinted : K
  /-- lastMacroPosition of GCodes.h:193 -/
  lastMacroPosition : Nat
  fileBeingPrinted : Option Nat
  cannedCycleMoveQueued : Bool
  cannedCycleMoveCount : Nat
  moveToDo : Nat → K
  activeDrive : Nat → Bool
  pauseStatus : PauseStatus
  pauseCoordinates : Nat → K
  lastProbedZ : K
  /-- the position we got up to in the file being printed -/
  filePos : Nat
  /-- saved file position for the next real move; none models NO_FILE_POSITION -/
  moveFilePos : Option Nat

/-- GCodes::IsRunning (GCodes.cpp:5752). -/
def isRunning {K : Type} (s : GState K) : Bool :=
  s.pauseStatus = PauseStatus.notPaused

/-- GCodes::AllAxesAreHomed (GCodes.h:282). -/
def allAxesAreHomed {K : Type} (s : GState K) : Bool :=
  s.axisIsHomed 0 && s.axisIsHomed 1 && s.axisIsHomed 2

/-- GCodes::AllMovesAreFinishedAndMoveBufferIsLoaded (GCodes.cpp:388-402).
plannerIdle abstracts reprap.GetMove()->AllMovesAreFinished(); currentPos
abstracts GetCurrentUserPosition writing the position and feed rate into
moveBuffer.  Returns the success flag and the updated state. -/
def allMovesFinishedAndLoaded {K : Type} (s : GState K) (plannerIdle : Bool)
    (currentPos : Nat → K) : Bool × GState K :=
  if s.moveAvailable then (false, s)
  else if !plannerIdle then (false, s)
  else (true, { s with moveBuffer := currentPos })

/-- GCodes::Push (GCodes.cpp:406-429).  At stackPointer ≥ STACK it reports an
error and returns true without touching any state; otherwise it waits for the
move buffer, saves the current frame and increments the stack pointer. -/
def pushState {K : Type} (s : GState K) (plannerIdle : Bool)
    (currentPos : Nat → K) : Bool × GState K × List Msg :=
  if STACK ≤ s.stackPointer then
    (true, s, [Msg.pushOverflowError])
  else
    match allMovesFinishedAndLoaded s plannerIdle currentPos with
    | (false, s1) => (false, s1, [])
    | (true, s1) =>
      (true,
        { s1 with
          stack := fun i =>
            if i = s1.stackPointer then
              { drivesRelative := s1.drivesRelative
                axesRelative := s1.axesRelative
                feedrate := s1.moveBuffer DRIVES
                extruderPositions := s1.lastExtruderPosition
                doingFileMacroFlag := s1.doingFileMacroFlag
                fileSlot := s1.fileBeingPrinted }
            else s1.stack i
          stackPointer := s1.stackPointer + 1 },
        [])

/-- GCodes::Pop (GCodes.cpp:432-457).  Restores the saved frame; fileBeingPrinted
is MoveFrom'd out of the stack slot, and endStopsToCheck is cleared. -/
def popState {K : Type} (s : GState K) (plannerIdle : Bool)
    (currentPos : Nat → K) : Bool × GState K × List Msg :=
  if s.stackPointer < 1 then
    (true, s, [Msg.popUnderflowError])
  else
    match allMovesFinishedAndLoaded s plannerIdle currentPos with
    | (false, s1) => (false, s1, [])
    | (true, s1) =>
      let sp := s1.stackPointer - 1
      let fr := s1.stack sp
      (true,
        { s1 with
          stackPointer := sp
          drivesRelative := fr.drivesRelative
          axesRelative := fr.axesRelative
          moveBuffer := fun i => if i = DRIVES then fr.feedrate else s1.moveBuffer i
          doingFileMacroFlag := fr.doingFileMacroFlag
          lastExtruderPosition := fr.extruderPositions
          fileBeingPrinted := fr.fileSlot
          stack := fun i =>
            if i = sp then { fr with fileSlot := none } else s1.stack i
          endStopsToCheck := 0 },
        [])

/-- GCodes::ClearMove (GCodes.cpp:722-727). -/
def clearMove {K : Type} (s : GState K) : GState K :=
  { s with moveAvailable := false, endStopsToCheck := 0, moveType := 0 }

/-- GCodes::ReadMove (GCodes.cpp:704-720): the planner's consumption of the
RawMove slot.  Returns none when no move is available, otherwise the move data
and the cleared state. -/
def readMove {K : Type} (s : GState K) :
    Option (((Nat → K) × Nat × Nat × Option Nat) × GState K) :=
  if s.moveAvailable then
    some ((s.moveBuffer, s.endStopsToCheck, s.moveType, s.moveFilePos), clearMove s)
  else
    none

/-- GCodes::DoCannedCycleMove (GCodes.cpp:864-896).  When a canned move is
already queued it waits for it to drain and pops the saved state; otherwise it
pushes the state, copies the active moveToDo entries into moveBuffer and makes
the move available. -/
def doCannedCycleMove {K : Type} (s : GState K) (ce : Nat) (plannerIdle : Bool)
    (currentPos : Nat → K) : Bool × GState K × List Msg :=
  if s.cannedCycleMoveQueued then
    match popState s plannerIdle currentPos with
    | (false, s1, ms) => (false, s1, ms)
    | (true, s1, ms) => (true, { s1 with cannedCycleMoveQueued := false }, ms)
  else
    match pushState s plannerIdle currentPos with
    | (false, s1, ms) => (false, s1, ms)
    | (true, s1, ms) =>
      (false,
        { s1 with
          moveBuffer := fun i =>
            if i ≤ DRIVES && s1.activeDrive i then s1.moveToDo i else s1.moveBuffer i
          endStopsToCheck := ce
          cannedCycleMoveQueued := true
          moveAvailable := true },
        ms)

/-- Pointwise update of a drive-indexed array. -/
def fupd {K : Type} (f : Nat → K) (i : Nat) (v : K) : Nat → K :=
  fun j => if j = i then v else f j

/-- The parts of the parsed command (class GCodeBuffer) that
LoadMoveBufferFromGCode and SetUpMove read. -/
structure GbCommand (K : Type) where
  /-- F parameter present -/
  seenF : Bool
  /-- gb->GetFValue() after Seen(F) -/
  fValue : K
  /-- E parameter present -/
  seenE : Bool
  /-- gb->GetFValue() after Seen(E), used for mixing tools -/
  eValue : K
  /-- gb->GetFloatArray after Seen(E): array of per-drive E values with the
  number of values the parser read -/
  eArray : List K
  /-- R parameter present -/
  seenR : Bool
  /-- gb->GetIValue() after Seen(R) -/
  rValue : Int
  /-- S parameter present -/
  seenS : Bool
  /-- gb->GetIValue() after Seen(S) -/
  sValue : Int
  /-- axis letter X/Y/Z (index 0/1/2) present -/
  seenAxis : Nat → Bool
  /-- gb->GetFValue() after Seen(axisLetters[axis]) -/
  axisValue : Nat → K

/-- The parts of class Tool that the move builder reads. -/
structure Tool (K : Type) where
  /-- tool->Drive(i) for i < tool->DriveCount(): extruder drive numbers -/
  drives : List Nat
  /-- tool->Mixing() -/
  mixing : Bool
  /-- tool->GetMix() -/
  mix : List K
  /-- tool->GetOffset()[axis] -/
  offsets : Nat → K

/-- Read-only machine configuration consulted through reprap./platform->
accessors. sqrtf stands for the C library square root used at GCodes.cpp:612. -/
structure Machine (K : Type) where
  isDeltaMode : Bool
  rolandActive : Bool
  axisMinimum : Nat → K
  axisMaximum : Nat → K
  printRadiusSquared : K
  homedHeight : K
  sqrtf : K → K
  toolWarningsAllowed : Bool
  zProbeDiveHeight : K
  zProbeTravelSpeed : K
  zProbeStopHeight : K
  zProbeType : Nat
  probeSpeed : K
  axisTotalLengthZ : K

/-- const float SECONDS_TO_MINUTES = 1.0 / 60.0 (src/Configuration.h:58-59). -/
def SECONDS_TO_MINUTES {K : Type} [Field K] : K := 1 / 60

variable {K : Type} [LinearOrderedField K]

/-- The extrusion loop of LoadMoveBufferFromGCode (GCodes.cpp:514-536): for
each logical tool drive in order, write the per-move delta into moveBuffer and
update lastExtruderPosition according to the G92 / relative / absolute mode.
pairs holds (tool->Drive(eDrive), eMovement[eDrive]) in eDrive order. -/
def applyExtrusion (doingG92 drivesRelative : Bool) (distanceScale : K)
    (pairs : List (Nat × K)) (mb lastE : Nat → K) : (Nat → K) × (Nat → K) :=
  pairs.foldl
    (fun acc p =>
      let drive := p.1
      let moveArg := p.2 * distanceScale
      -- each branch writes moveBuffer[drive + AXES] and lastExtruderPosition[drive]
      let w : K × K :=
        if doingG92 then (moveArg, moveArg)
        else if drivesRelative then (moveArg, acc.2 drive + moveArg)
        else (moveArg - acc.2 drive, moveArg)
      (fupd acc.1 (drive + AXES) w.1, fupd acc.2 drive w.2))
    (mb, lastE)

/-- The per-axis body of the axis loop of LoadMoveBufferFromGCode
(GCodes.cpp:552-602), producing the new moveBuffer[axis] and homed flag. -/
def axisTarget (mach : Machine K) (tool : Option (Tool K)) (gb : GbCommand K)
    (doingG92 applyLimits doingResumeMove axesRelative : Bool)
    (distanceScale : K) (axisScaleFactors pauseCoordinates : Nat → K)
    (homed : Bool) (mbAxis : K) (axis : Nat) : K × Bool :=
  if gb.seenAxis axis then
    let a1 := gb.axisValue axis * distanceScale
    let a2 := if mach.isDeltaMode then a1 * axisScaleFactors axis else a1
    if doingG92 then
      (a2, true)
    else
      let a3 :=
        if doingResumeMove then a2 + pauseCoordinates axis
        else if axesRelative then a2 + mbAxis
        else
          match tool with
          | some t => a2 - t.offsets axis
          | none => a2
      let a4 :=
        if applyLimits && homed && !(mach.isDeltaMode || mach.rolandActive) then
          if a3 < mach.axisMinimum axis then mach.axisMinimum axis
          else if mach.axisMaximum axis < a3 then mach.axisMaximum axis
          else a3
        else a3
      (a4, homed)
  else if doingResumeMove then
    (pauseCoordinates axis, homed)
  else
    (mbAxis, homed)

/-- The delta soft-limit section of LoadMoveBufferFromGCode
(GCodes.cpp:604-620), applied when applyLimits holds on a delta machine with
all axes homed: scale X and Y in when the squared XY radius exceeds the
configured squared print radius, and clamp Z between AxisMinimum(Z) and the
homed height. -/
def deltaLimitClamp (mach : Machine K) (mb : Nat → K) : Nat → K :=
  let diagonalSquared := mb 0 * mb 0 + mb 1 * mb 1
  let mb1 :=
    if mach.printRadiusSquared < diagonalSquared then
      let factor := mach.sqrtf (mach.printRadiusSquared / diagonalSquared)
      fupd (fupd mb 0 (mb 0 * factor)) 1 (mb 1 * factor)
    else mb
  fupd mb1 2 (max (mach.axisMinimum 2) (min (mb1 2) mach.homedHeight))

/-- One iteration of the axis loop (GCodes.cpp:552-602) on the
(moveBuffer, axisIsHomed) accumulator. -/
def axisStep (mach : Machine K) (tool : Option (Tool K)) (gb : GbCommand K)
    (doingG92 applyLimits doingResumeMove axesRelative : Bool)
    (distanceScale : K) (axisScaleFactors pauseCoordinates : Nat → K)
    (acc : (Nat → K) × (Nat → Bool)) (axis : Nat) : (Nat → K) × (Nat → Bool) :=
  let r := axisTarget mach tool gb doingG92 applyLimits doingResumeMove
    axesRelative distanceScale axisScaleFactors pauseCoordinates
    (acc.2 axis) (acc.1 axis) axis
  (fupd acc.1 axis r.1, fun j => if j = axis then r.2 else acc.2 j)

/-- The movement-axes part of LoadMoveBufferFromGCode (GCodes.cpp:540-622):
the R (resume) check, the axis loop, and the delta soft-limit section (which
re-reads the possibly updated homed flags). -/
def loadAxes (mach : Machine K) (tool : Option (Tool K)) (gb : GbCommand K)
    (doingG92 applyLimits : Bool) (s : GState K) : Bool × GState K × List Msg :=
  let wantResume := gb.seenR && 0 < gb.rValue
  if wantResume && isRunning s then
    (false, s, [Msg.resumeMoveError])
  else
    let axesResult := (List.range AXES).foldl
      (axisStep mach tool gb doingG92 applyLimits wantResume s.axesRelative
        s.distanceScale s.axisScaleFactors s.pauseCoordinates)
      (s.moveBuffer, s.axisIsHomed)
    let mbFinal :=
      if applyLimits && mach.isDeltaMode &&
          (axesResult.2 0 && axesResult.2 1 && axesResult.2 2) then
        deltaLimitClamp mach axesResult.1
      else axesResult.1
    (true, { s with moveBuffer := mbFinal, axisIsHomed := axesResult.2 }, [])

/-- GCodes::LoadMoveBufferFromGCode (GCodes.cpp:462-623).  tool is
reprap.GetCurrentTool().  Returns whether a move was built, the new state and
the emitted messages. -/
def loadMoveBufferFromGCode (mach : Machine K) (tool : Option (Tool K))
    (gb : GbCommand K) (doingG92 applyLimits : Bool) (s : GState K) :
    Bool × GState K × List Msg :=
  -- Zero every extruder drive as some drives may not be changed
  let mb0 : Nat → K := fun i => if AXES ≤ i && i < DRIVES then 0 else s.moveBuffer i
  -- Deal with feed rate
  let mb1 : Nat → K :=
    if gb.seenF then fupd mb0 DRIVES (gb.fValue * s.distanceScale * SECONDS_TO_MINUTES)
    else mb0
  let s1 := { s with moveBuffer := mb1 }
  -- First do extrusion, and check that we have a tool to extrude with
  if gb.seenE then
    match tool with
    | none =>
      (false, s1, if mach.toolWarningsAllowed then [Msg.noToolError] else [])
    | some t =>
      let eMoveCount := t.drives.length
      if 0 < eMoveCount then
        if t.mixing then
          let eMovement := (List.range eMoveCount).map fun i => gb.eValue * t.mix.getD i 0
          let ext := applyExtrusion doingG92 s1.drivesRelative s1.distanceScale
            (t.drives.zip eMovement) s1.moveBuffer s1.lastExtruderPosition
          loadAxes mach tool gb doingG92 applyLimits
            { s1 with moveBuffer := ext.1, lastExtruderPosition := ext.2 }
        else
          if gb.eArray.length ≠ eMoveCount then
            (false, s1, [Msg.wrongDriveCountError])
          else
            let ext := applyExtrusion doingG92 s1.drivesRelative s1.distanceScale
              (t.drives.zip gb.eArray) s1.moveBuffer s1.lastExtruderPosition
            loadAxes mach tool gb doingG92 applyLimits
              { s1 with moveBuffer := ext.1, lastExtruderPosition := ext.2 }
      else
        loadAxes mach tool gb doingG92 applyLimits s1
  else
    loadAxes mach tool gb doingG92 applyLimits s1

/-- GCodes::SetUpMove (GCodes.cpp:629-701).  Returns 0 when the previous move
has not been taken yet, 1 when the move was queued (or deliberately ignored on
a delta safety check), 2 when the caller must wait for the move to complete.
isFileChannel tells whether gb == fileGCode; currentPos abstracts
GetCurrentUserPosition / GetCurrentRolandPosition. -/
def setUpMove (mach : Machine K) (tool : Option (Tool K)) (gb : GbCommand K)
    (isFileChannel : Bool) (currentPos : Nat → K) (s : GState K) :
    Nat × GState K × List Msg :=
  -- Last one gone yet?
  if s.moveAvailable then (0, s, [])
  else
    let mt : Nat :=
      if gb.seenS ∧ (gb.sValue = 1 ∨ gb.sValue = 2) then gb.sValue.toNat else 0
    let es : Nat :=
      if gb.seenS ∧ gb.sValue = 1 then
        (List.range AXES).foldl
          (fun acc i => if gb.seenAxis i then acc ||| (1 <<< i) else acc) 0
      else 0
    let s1 := { s with endStopsToCheck := es, moveType := mt }
    if mach.isDeltaMode ∧ mt ≠ 0 ∧ ¬s1.axesRelative then
      (1, s1, [Msg.deltaAbsoluteMotorReply])
    else if mach.isDeltaMode ∧ mt = 0 ∧ ¬allAxesAreHomed s1 ∧
        (gb.seenAxis 0 ∨ gb.seenAxis 1 ∨ gb.seenAxis 2) then
      (1, s1, [Msg.deltaNotHomedReply])
    else
      let s2 := { s1 with moveBuffer := currentPos }
      let r := loadMoveBufferFromGCode mach tool gb false (s2.limitAxes ∧ mt = 0) s2
      let s3 :=
        { r.2.1 with
          moveAvailable := r.1
          moveFilePos :=
            if r.1 then (if isFileChannel then some s.filePos else none)
            else r.2.1.moveFilePos }
      (if mt ≠ 0 then 2 else 1, s3, r.2.2)

/-- The operations that touch the single RawMove slot: the two producers
(SetUpMove for G0/G1, DoCannedCycleMove for canned cycles) and the two
consumers (ReadMove called by the planner, ClearMove). -/
inductive SlotOp (K : Type) where
  | setUp (mach : Machine K) (tool : Option (Tool K)) (gb : GbCommand K)
      (isFileChannel : Bool) (currentPos : Nat → K)
  | canned (ce : Nat) (plannerIdle : Bool) (currentPos : Nat → K)
  | read
  | clear

/-- State transition of one slot operation. -/
def slotStep : SlotOp K → GState K → GState K
  | SlotOp.setUp mach tool gb f cp, s => (setUpMove mach tool gb f cp s).2.1
  | SlotOp.canned ce p cp, s => (doCannedCycleMove s ce p cp).2.1
  | SlotOp.read, s =>
    match readMove s with
    | some r => r.2
    | none => s
  | SlotOp.clear, s => clearMove s

/-- Iterated slot operations. -/
def runOps (ops : List (SlotOp K)) (s : GState K) : GState K :=
  ops.foldl (fun t op => slotStep op t) s

/-- The pending move data of a state: what ReadMove would hand to the planner. -/
def pendingMove (s : GState K) : (Nat → K) × Nat × Nat × Option Nat :=
  (s.moveBuffer, s.endStopsToCheck, s.moveType, s.moveFilePos)

/-- The state trace left by a list of slot operations (initial state included). -/
def traceStates : List (SlotOp K) → GState K → List (GState K)
  | [], s => [s]
  | op :: ops, s => s :: traceStates ops (slotStep op s)

/-- A neutral stack frame, used for concrete test states. -/
def frame0 : StackFrame ℚ :=
  { drivesRelative := true, axesRelative := false, feedrate := 0
    extruderPositions := fun _ => 0, doingFileMacroFlag := false, fileSlot := none }

/-- A concrete fixture state (the modal defaults after GCodes::Init), used by
witnesses and counterexamples. -/
def baseState : GState ℚ :=
  { moveAvailable := false, moveBuffer := fun _ => 0, endStopsToCheck := 0
    moveType := 0, drivesRelative := true, axesRelative := false
    distanceScale := 1, axisScaleFactors := fun _ => 1
    lastExtruderPosition := fun _ => 0, axisIsHomed := fun _ => false
    limitAxes := true, stackPointer := 0, stack := fun _ => frame0
    doingFileMacroFlag := false, returningFromMacro := false
    macroSource := none, fractionOfFilePrinted := -1, lastMacroPosition := 0
    fileBeingPrinted := none
    cannedCycleMoveQueued := false, cannedCycleMoveCount := 0
    moveToDo := fun _ => 0, activeDrive := fun _ => false
    pauseStatus := PauseStatus.notPaused, pauseCoordinates := fun _ => 0
    lastProbedZ := 0, filePos := 0, moveFilePos := none }

lemma setUpMove_of_available {s : GState K} (h : s.moveAvailable = true)
    (mach : Machine K) (tool : Option (Tool K)) (gb : GbCommand K)
    (f : Bool) (cp : Nat → K) : setUpMove mach tool gb f cp s = (0, s, []) := by
  simp [setUpMove, h]

lemma doCanned_of_available {s : GState K} (h : s.moveAvailable = true)
    (hsp : s.stackPointer < STACK) (ce : Nat) (p : Bool) (cp : Nat → K) :
    doCannedCycleMove s ce p cp = (false, s, []) ∨
    doCannedCycleMove s ce p cp =
      (true, { s with cannedCycleMoveQueued := false }, [Msg.popUnderflowError]) := by
  by_cases hq : s.cannedCycleMoveQueued
  · by_cases h0 : s.stackPointer < 1
    · right
      simp [doCannedCycleMove, hq, popState, h0]
    · left
      simp [doCannedCycleMove, hq, popState, h0, allMovesFinishedAndLoaded, h]
  · left
    simp [doCannedCycleMove, hq, pushState, Nat.not_le.mpr hsp,
      allMovesFinishedAndLoaded, h]

lemma slotStep_preserving {s : GState K} (h : s.moveAvailable = true)
    (hsp : s.stackPointer < STACK) (op : SlotOp K) :
    ((slotStep op s).moveAvailable = true ∧ pendingMove (slotStep op s) = pendingMove s ∧
      (slotStep op s).stackPointer = s.stackPointer) ∨
    (slotStep op s).moveAvailable = false := by
  cases op with
  | setUp mach tool gb f cp =>
    left
    simp [slotStep, setUpMove_of_available h, h]
  | canned ce p cp =>
    rcases doCanned_of_available h hsp ce p cp with hc | hc <;>
      simp [slotStep, hc, pendingMove, h]
  | read =>
    right
    simp [slotStep, readMove, h, clearMove]
  | clear =>
    right
    simp [slotStep, clearMove]

lemma runOps_pending {s : GState K} (ops : List (SlotOp K))
    (h : s.moveAvailable = true) (hsp : s.stackPointer < STACK)
    (hall : ∀ t ∈ traceStates ops s, t.moveAvailable = true) :
    pendingMove (runOps ops s) = pendingMove s := by
  induction ops generalizing s with
  | nil => rfl
  | cons op rest ih =>
    have hnext : ∀ t ∈ traceStates rest (slotStep op s), t.moveAvailable = true := by
      intro t ht
      exact hall t (by simp [traceStates]; exact Or.inr ht)
    have hs' : (slotStep op s).moveAvailable = true := by
      apply hnext
      cases rest <;> simp [traceStates]
    rcases slotStep_preserving h hsp op with ⟨_, hpend, hspEq⟩ | hfalse
    · have : pendingMove (runOps rest (slotStep op s)) = pendingMove (slotStep op s) :=
        ih hs' (hspEq ▸ hsp) hnext
      calc pendingMove (runOps (op :: rest) s)
          = pendingMove (runOps rest (slotStep op s)) := rfl
        _ = pendingMove (slotStep op s) := this
        _ = pendingMove s := hpend
    · rw [hfalse] at hs'
      exact absurd hs' (by simp)

/-- C1 (amended: the guarantee needs the machine-state stack not to be full,
because Push() short-circuits its wait on stack overflow): while a move is
pending in the single RawMove slot, SetUpMove refuses to build a new one
(returns 0 with the state untouched), DoCannedCycleMove never queues its
canned move (it either waits unchanged or merely resets its queued flag after
a pop underflow), the slot is consumed exactly by ReadMove (which hands the
pending move to the planner and clears the flag) or ClearMove, and along any
sequence of slot operations during which the slot stays occupied the pending
move is never replaced by a second one. -/
theorem c1_raw_move_slot_exclusive (s : GState K) (h : s.moveAvailable = true)
    (hsp : s.stackPointer < STACK) :
    (∀ mach tool gb f cp, setUpMove mach tool gb f cp s = (0, s, [])) ∧
    (∀ ce p cp,
      doCannedCycleMove s ce p cp = (false, s, []) ∨
      doCannedCycleMove s ce p cp =
        (true, { s with cannedCycleMoveQueued := false }, [Msg.popUnderflowError])) ∧
    readMove s = some (pendingMove s, clearMove s) ∧
    (clearMove s).moveAvailable = false ∧
    (∀ ops : List (SlotOp K),
      (∀ t ∈ traceStates ops s, t.moveAvailable = true) →
      pendingMove (runOps ops s) = pendingMove s) := by
  refine ⟨fun mach tool gb f cp => setUpMove_of_available h mach tool gb f cp,
    fun ce p cp => doCanned_of_available h hsp ce p cp,
    by simp [readMove, h, pendingMove], by simp [clearMove],
    fun ops hall => runOps_pending ops h hsp hall⟩

/-- C1 witness: the guarantee instantiated at a concrete occupied-slot state. -/
theorem c1_raw_move_slot_exclusive_witness :
    ({ baseState with moveAvailable := true } : GState ℚ).moveAvailable = true ∧
    ({ baseState with moveAvailable := true } : GState ℚ).stackPointer < STACK ∧
    (∀ mach tool gb f cp,
      setUpMove mach tool gb f cp ({ baseState with moveAvailable := true } : GState ℚ) =
        (0, { baseState with moveAvailable := true }, [])) :=
  ⟨rfl, by decide,
    (c1_raw_move_slot_exclusive { baseState with moveAvailable := true } rfl (by decide)).1⟩

/-- A state whose RawMove slot is occupied while the machine-state stack is
already full, with a canned move to Z = 7 prepared in moveToDo. -/
def c1FullStackState : GState ℚ :=
  { baseState with
    moveAvailable := true
    stackPointer := STACK
    activeDrive := fun i => decide (i = 2)
    moveToDo := fun _ => 7 }

/-- C1 counterexample: with the machine-state stack full (stackPointer =
STACK) the overflow branch of Push() returns true without waiting for the
move slot, so DoCannedCycleMove overwrites a pending move: starting from a
state whose slot is occupied by a move with Z target 0, the canned move with
Z target 7 is written into the slot while moveAvailable was already set,
falsifying the claim that the canned move is queued only after the slot has
been observed empty. -/
theorem c1_canned_overwrites_on_full_stack :
    c1FullStackState.moveAvailable = true ∧ c1FullStackState.moveBuffer 2 = 0 ∧
    (doCannedCycleMove c1FullStackState 0 true fun _ => 0).2.1.moveAvailable = true ∧
    (doCannedCycleMove c1FullStackState 0 true fun _ => 0).2.1.moveBuffer 2 = 7 :=
  ⟨rfl, rfl, rfl, rfl⟩

/-- C6: GCodes::Push invoked with the stack already at its maximum depth
(STACK = 5 frames) reports a stack-overflow error, completes (returns true,
so the caller does not retry or recurse), and leaves the whole state — the
stack pointer and every saved frame included — unchanged. -/
theorem c6_push_overflow_no_alloc (s : GState K) (plannerIdle : Bool)
    (cp : Nat → K) (h : STACK ≤ s.stackPointer) :
    pushState s plannerIdle cp = (true, s, [Msg.pushOverflowError]) := by
  simp [pushState, h]

/-- C6 witness: Push at a concrete stack pointer of 5. -/
theorem c6_push_overflow_no_alloc_witness :
    STACK ≤ ({ baseState with stackPointer := 5 } : GState ℚ).stackPointer ∧
    pushState ({ baseState with stackPointer := 5 } : GState ℚ) true (fun _ => 0) =
      (true, { baseState with stackPointer := 5 }, [Msg.pushOverflowError]) :=
  ⟨by decide, c6_push_overflow_no_alloc _ true _ (by decide)⟩

lemma fupd_same (f : Nat → K) (i : Nat) (v : K) : fupd f i v i = v := by
  simp [fupd]

lemma fupd_ne (f : Nat → K) {i j : Nat} (v : K) (h : j ≠ i) : fupd f i v j = f j := by
  simp [fupd, h]

lemma applyExtrusion_append (g dr : Bool) (ds : K) (P Q : List (Nat × K))
    (mb le : Nat → K) :
    applyExtrusion g dr ds (P ++ Q) mb le =
      applyExtrusion g dr ds Q (applyExtrusion g dr ds P mb le).1
        (applyExtrusion g dr ds P mb le).2 := by
  simp [applyExtrusion, List.foldl_append]

lemma applyExtrusion_untouched (g dr : Bool) (ds : K) (P : List (Nat × K))
    (mb le : Nat → K) (d : Nat) (hd : ∀ p ∈ P, p.1 ≠ d) :
    (applyExtrusion g dr ds P mb le).1 (d + AXES) = mb (d + AXES) ∧
    (applyExtrusion g dr ds P mb le).2 d = le d := by
  induction P generalizing mb le with
  | nil => exact ⟨rfl, rfl⟩
  | cons p rest ih =>
    have hp : p.1 ≠ d := hd p (List.mem_cons_self p rest)
    have hrest : ∀ q ∈ rest, q.1 ≠ d := fun q hq => hd q (List.mem_cons_of_mem p hq)
    have hmb : p.1 + AXES ≠ d + AXES := fun hc => hp (Nat.add_right_cancel hc)
    obtain ⟨h1, h2⟩ := ih (fupd mb (p.1 + AXES)
      (if g then p.2 * ds
       else if dr then p.2 * ds
       else p.2 * ds - le p.1))
      (fupd le p.1
        (if g then p.2 * ds
         else if dr then le p.1 + p.2 * ds
         else p.2 * ds)) hrest
    have hstep : applyExtrusion g dr ds (p :: rest) mb le =
        applyExtrusion g dr ds rest
          (fupd mb (p.1 + AXES)
            (if g then p.2 * ds
             else if dr then p.2 * ds
             else p.2 * ds - le p.1))
          (fupd le p.1
            (if g then p.2 * ds
             else if dr then le p.1 + p.2 * ds
             else p.2 * ds)) := by
      simp only [applyExtrusion, List.foldl_cons]
      cases g <;> cases dr <;> rfl
    rw [hstep]
    exact ⟨h1.trans (fupd_ne mb _ (Ne.symm hmb)), h2.trans (fupd_ne le _ (Ne.symm hp))⟩

lemma applyExtrusion_rel_step (ds : K) (d : Nat) (v : K) (rest : List (Nat × K))
    (mb le : Nat → K) :
    applyExtrusion false true ds ((d, v) :: rest) mb le =
      applyExtrusion false true ds rest (fupd mb (d + AXES) (v * ds))
        (fupd le d (le d + v * ds)) := rfl

lemma applyExtrusion_abs_step (ds : K) (d : Nat) (v : K) (rest : List (Nat × K))
    (mb le : Nat → K) :
    applyExtrusion false false ds ((d, v) :: rest) mb le =
      applyExtrusion false false ds rest (fupd mb (d + AXES) (v * ds - le d))
        (fupd le d (v * ds)) := rfl

/-- Drives-relative extrusion through the loop of GCodes.cpp:514-536: the
drive occurring once in the pair list gets the commanded delta and the stored
extruder position is incremented by it. -/
lemma applyExtrusion_split_rel (ds : K) (P Q : List (Nat × K)) (d : Nat) (v : K)
    (mb le : Nat → K) (hP : ∀ p ∈ P, p.1 ≠ d) (hQ : ∀ p ∈ Q, p.1 ≠ d) :
    (applyExtrusion false true ds (P ++ (d, v) :: Q) mb le).1 (d + AXES) = v * ds ∧
    (applyExtrusion false true ds (P ++ (d, v) :: Q) mb le).2 d = le d + v * ds := by
  rw [applyExtrusion_append]
  obtain ⟨hp1, hp2⟩ := applyExtrusion_untouched false true ds P mb le d hP
  rw [applyExtrusion_rel_step]
  obtain ⟨hq1, hq2⟩ := applyExtrusion_untouched false true ds Q
    (fupd (applyExtrusion false true ds P mb le).1 (d + AXES) (v * ds))
    (fupd (applyExtrusion false true ds P mb le).2 d
      ((applyExtrusion false true ds P mb le).2 d + v * ds)) d hQ
  rw [hq1, hq2, fupd_same, fupd_same, hp2]
  exact ⟨rfl, rfl⟩

/-- Drives-absolute extrusion through the loop of GCodes.cpp:514-536: the
entry is the commanded value minus the stored position, and the stored
position becomes the commanded value. -/
lemma applyExtrusion_split_abs (ds : K) (P Q : List (Nat × K)) (d : Nat) (v : K)
    (mb le : Nat → K) (hP : ∀ p ∈ P, p.1 ≠ d) (hQ : ∀ p ∈ Q, p.1 ≠ d) :
    (applyExtrusion false false ds (P ++ (d, v) :: Q) mb le).1 (d + AXES) =
      v * ds - le d ∧
    (applyExtrusion false false ds (P ++ (d, v) :: Q) mb le).2 d = v * ds := by
  rw [applyExtrusion_append]
  obtain ⟨hp1, hp2⟩ := applyExtrusion_untouched false false ds P mb le d hP
  rw [applyExtrusion_abs_step]
  obtain ⟨hq1, hq2⟩ := applyExtrusion_untouched false false ds Q
    (fupd (applyExtrusion false false ds P mb le).1 (d + AXES)
      (v * ds - (applyExtrusion false false ds P mb le).2 d))
    (fupd (applyExtrusion false false ds P mb le).2 d (v * ds)) d hQ
  rw [hq1, hq2, fupd_same, fupd_same, hp2]
  exact ⟨rfl, rfl⟩

lemma deltaLimitClamp_high (mach : Machine K) (mb : Nat → K) (i : Nat)
    (h : AXES ≤ i) : deltaLimitClamp mach mb i = mb i := by
  have h3 : 3 ≤ i := h
  have h0 : i ≠ 0 := by omega
  have h1 : i ≠ 1 := by omega
  have h2 : i ≠ 2 := by omega
  unfold deltaLimitClamp
  split_ifs <;> simp [fupd, h0, h1, h2]

lemma axesFold_untouched (mach : Machine K) (tool : Option (Tool K))
    (gb : GbCommand K) (g92 al w ar : Bool) (ds : K) (asf pc : Nat → K)
    (l : List Nat) (acc : (Nat → K) × (Nat → Bool)) (i : Nat)
    (hl : ∀ a ∈ l, a ≠ i) :
    (l.foldl (axisStep mach tool gb g92 al w ar ds asf pc) acc).1 i = acc.1 i ∧
    (l.foldl (axisStep mach tool gb g92 al w ar ds asf pc) acc).2 i = acc.2 i := by
  induction l generalizing acc with
  | nil => exact ⟨rfl, rfl⟩
  | cons a rest ih =>
    have ha : a ≠ i := hl a (List.mem_cons_self a rest)
    have hrest : ∀ b ∈ rest, b ≠ i := fun b hb => hl b (List.mem_cons_of_mem a hb)
    obtain ⟨h1, h2⟩ := ih (axisStep mach tool gb g92 al w ar ds asf pc acc a) hrest
    rw [List.foldl_cons]
    refine ⟨h1.trans ?_, h2.trans ?_⟩
    · simp [axisStep, fupd, Ne.symm ha]
    · simp [axisStep, Ne.symm ha]

/-- The axis part of LoadMoveBufferFromGCode succeeds when no R parameter was
given, and touches neither the extruder bookkeeping nor any moveBuffer entry
at or beyond the first extruder drive. -/
lemma loadAxes_result (mach : Machine K) (tool : Option (Tool K))
    (gb : GbCommand K) (g92 al : Bool) (s : GState K) (hR : gb.seenR = false) :
    (loadAxes mach tool gb g92 al s).1 = true ∧
    (loadAxes mach tool gb g92 al s).2.1.lastExtruderPosition =
      s.lastExtruderPosition ∧
    ∀ i, AXES ≤ i → (loadAxes mach tool gb g92 al s).2.1.moveBuffer i =
      s.moveBuffer i := by
  refine ⟨?_, ?_, ?_⟩
  · simp only [loadAxes, hR, Bool.false_and, Bool.false_eq_true, if_false]
  · simp only [loadAxes, hR, Bool.false_and, Bool.false_eq_true, if_false]
  · intro i hi
    have h3 : 3 ≤ i := hi
    have hmem : ∀ a ∈ List.range AXES, a ≠ i := by
      intro a ha
      have ha3 : a < 3 := List.mem_range.mp ha
      omega
    obtain ⟨hA, _⟩ := axesFold_untouched mach tool gb g92 al
      false s.axesRelative s.distanceScale
      s.axisScaleFactors s.pauseCoordinates (List.range AXES)
      (s.moveBuffer, s.axisIsHomed) i hmem
    simp only [loadAxes, hR, Bool.false_and, Bool.false_eq_true, if_false]
    split_ifs with hcl
    · rw [deltaLimitClamp_high mach _ i hi]
      exact hA
    · exact hA

/-- C2: a G0/G1 move carrying an E parameter with a non-mixing current tool
(the doingG92 = false path of LoadMoveBufferFromGCode, GCodes.cpp:479-538).
For a drive d commanded the value v (occurring exactly once in the tool's
drive list, decomposed as pre ++ d :: post) the built move and the stored
extruder position obey: in drives-relative mode the per-drive entry is
v·distanceScale and lastExtruderPosition[d] is incremented by it; in
drives-absolute mode the entry is v·distanceScale −
lastExtruderPosition[d] and lastExtruderPosition[d] is then set to
v·distanceScale, i.e. to the command's absolute E value. -/
theorem c2_extruder_move_bookkeeping (mach : Machine K) (t : Tool K)
    (gb : GbCommand K) (s : GState K) (applyLimits : Bool)
    (pre post : List Nat) (preV postV : List K) (d : Nat) (v : K)
    (hdr : t.drives = pre ++ d :: post) (hea : gb.eArray = preV ++ v :: postV)
    (hlen1 : pre.length = preV.length) (hlen2 : post.length = postV.length)
    (hd1 : ∀ x ∈ pre, x ≠ d) (hd2 : ∀ x ∈ post, x ≠ d)
    (hmix : t.mixing = false) (hE : gb.seenE = true) (hR : gb.seenR = false) :
    (loadMoveBufferFromGCode mach (some t) gb false applyLimits s).1 = true ∧
    (s.drivesRelative = true →
      (loadMoveBufferFromGCode mach (some t) gb false applyLimits s).2.1.moveBuffer
          (d + AXES) = v * s.distanceScale ∧
      (loadMoveBufferFromGCode mach (some t) gb false
          applyLimits s).2.1.lastExtruderPosition d =
        s.lastExtruderPosition d + v * s.distanceScale) ∧
    (s.drivesRelative = false →
      (loadMoveBufferFromGCode mach (some t) gb false applyLimits s).2.1.moveBuffer
          (d + AXES) = v * s.distanceScale - s.lastExtruderPosition d ∧
      (loadMoveBufferFromGCode mach (some t) gb false
          applyLimits s).2.1.lastExtruderPosition d = v * s.distanceScale) := by
  have hlen : gb.eArray.length = t.drives.length := by
    simp [hdr, hea, hlen1, hlen2]
  have hzip : t.drives.zip gb.eArray =
      pre.zip preV ++ (d, v) :: post.zip postV := by
    rw [hdr, hea, List.zip_append hlen1]
    rfl
  have hP : ∀ p ∈ pre.zip preV, p.1 ≠ d := fun p hp =>
    hd1 p.1 (List.of_mem_zip hp).1
  have hQ : ∀ p ∈ post.zip postV, p.1 ≠ d := fun p hp =>
    hd2 p.1 (List.of_mem_zip hp).1
  have hpos : 0 < t.drives.length := by simp [hdr]
  have hunfold : loadMoveBufferFromGCode mach (some t) gb false applyLimits s =
      loadAxes mach (some t) gb false applyLimits
        { s with
          moveBuffer := (applyExtrusion false s.drivesRelative s.distanceScale
            (t.drives.zip gb.eArray)
            (if gb.seenF then
              fupd (fun i => if AXES ≤ i && i < DRIVES then 0 else s.moveBuffer i)
                DRIVES (gb.fValue * s.distanceScale * SECONDS_TO_MINUTES)
             else fun i => if AXES ≤ i && i < DRIVES then 0 else s.moveBuffer i)
            s.lastExtruderPosition).1
          lastExtruderPosition := (applyExtrusion false s.drivesRelative
            s.distanceScale (t.drives.zip gb.eArray)
            (if gb.seenF then
              fupd (fun i => if AXES ≤ i && i < DRIVES then 0 else s.moveBuffer i)
                DRIVES (gb.fValue * s.distanceScale * SECONDS_TO_MINUTES)
             else fun i => if AXES ≤ i && i < DRIVES then 0 else s.moveBuffer i)
            s.lastExtruderPosition).2 } := by
    simp only [loadMoveBufferFromGCode, hE, hmix, hlen, hpos, if_true, if_pos,
      Bool.false_eq_true, if_false, ne_eq, not_true_eq_false]
  rw [hunfold]
  obtain ⟨hL1, hL2, hL3⟩ := loadAxes_result mach (some t) gb false applyLimits _ hR
  refine ⟨hL1, ?_, ?_⟩
  · intro hRel
    rw [hL2, hL3 (d + AXES) (Nat.le_add_left AXES d)]
    rw [hzip] at *
    have := applyExtrusion_split_rel s.distanceScale (pre.zip preV)
      (post.zip postV) d v
      (if gb.seenF then
        fupd (fun i => if AXES ≤ i && i < DRIVES then 0 else s.moveBuffer i)
          DRIVES (gb.fValue * s.distanceScale * SECONDS_TO_MINUTES)
       else fun i => if AXES ≤ i && i < DRIVES then 0 else s.moveBuffer i)
      s.lastExtruderPosition hP hQ
    rw [hRel]
    exact ⟨this.1, this.2⟩
  · intro hAbs
    rw [hL2, hL3 (d + AXES) (Nat.le_add_left AXES d)]
    rw [hzip] at *
    have := applyExtrusion_split_abs s.distanceScale (pre.zip preV)
      (post.zip postV) d v
      (if gb.seenF then
        fupd (fun i => if AXES ≤ i && i < DRIVES then 0 else s.moveBuffer i)
          DRIVES (gb.fValue * s.distanceScale * SECONDS_TO_MINUTES)
       else fun i => if AXES ≤ i && i < DRIVES then 0 else s.moveBuffer i)
      s.lastExtruderPosition hP hQ
    rw [hAbs]
    exact ⟨this.1, this.2⟩

/-- A concrete Cartesian machine configuration used by witnesses. -/
def mach0 : Machine ℚ :=
  { isDeltaMode := false, rolandActive := false
    axisMinimum := fun _ => 0, axisMaximum := fun _ => 200
    printRadiusSquared := 100, homedHeight := 150, sqrtf := fun _ => 0
    toolWarningsAllowed := true, zProbeDiveHeight := 5, zProbeTravelSpeed := 50
    zProbeStopHeight := 1, zProbeType := 1, probeSpeed := 2
    axisTotalLengthZ := 200 }

/-- A single-drive non-mixing tool fixture. -/
def tool0 : Tool ℚ :=
  { drives := [0], mixing := false, mix := [], offsets := fun _ => 0 }

/-- A parsed G1 E5 command fixture. -/
def gbE5 : GbCommand ℚ :=
  { seenF := false, fValue := 0, seenE := true, eValue := 0, eArray := [5]
    seenR := false, rValue := 0, seenS := false, sValue := 0
    seenAxis := fun _ => false, axisValue := fun _ => 0 }

/-- Fixture: drives-absolute modal state with a stored extruder position of 2. -/
def sAbs2 : GState ℚ :=
  { baseState with
    drivesRelative := false
    lastExtruderPosition := fun _ => 2 }

/-- C2 witness: G1 E5 in drives-absolute mode with a stored extruder position
of 2 builds a move whose extruder entry is 3 and stores 5. -/
theorem c2_extruder_move_bookkeeping_witness :
    (loadMoveBufferFromGCode mach0 (some tool0) gbE5 false false sAbs2).1 = true ∧
    (loadMoveBufferFromGCode mach0 (some tool0) gbE5 false
      false sAbs2).2.1.moveBuffer 3 = 3 ∧
    (loadMoveBufferFromGCode mach0 (some tool0) gbE5 false
      false sAbs2).2.1.lastExtruderPosition 0 = 5 := by
  have h := c2_extruder_move_bookkeeping mach0 tool0 gbE5 sAbs2
    false [] [] ([] : List ℚ) ([] : List ℚ) 0 5 rfl rfl rfl rfl
    (by intro x hx; cases hx) (by intro x hx; cases hx) rfl rfl rfl
  obtain ⟨h1, _, h3⟩ := h
  obtain ⟨ha, hb⟩ := h3 rfl
  refine ⟨h1, ?_, ?_⟩
  · rw [show (3 : Nat) = 0 + AXES from rfl, ha]
    norm_num [sAbs2, baseState]
  · rw [hb]
    norm_num [sAbs2, baseState]

/-- C3: the delta soft-limit section of the move builder
(GCodes.cpp:604-620, reached when limit_axes is on and the move has type 0 —
SetUpMove passes applyLimits = (limitAxes && moveType == 0) at
GCodes.cpp:694 — on a delta machine with all axes homed), with sqrtf being
the real square root.  A target whose squared XY radius equals the print
radius squared passes through unchanged in X and Y; one strictly larger is
scaled toward the origin by a common factor in [0, 1) that lands it exactly
on the print radius; and Z is clamped to at most the homed height and at
least the Z axis minimum. -/
theorem c3_delta_soft_limits (mach : Machine ℝ) (mb : Nat → ℝ)
    (hsq : mach.sqrtf = Real.sqrt) (hR2 : 0 ≤ mach.printRadiusSquared)
    (hzmm : mach.axisMinimum 2 ≤ mach.homedHeight) :
    (mb 0 * mb 0 + mb 1 * mb 1 = mach.printRadiusSquared →
      deltaLimitClamp mach mb 0 = mb 0 ∧ deltaLimitClamp mach mb 1 = mb 1) ∧
    (mach.printRadiusSquared < mb 0 * mb 0 + mb 1 * mb 1 →
      ∃ f : ℝ, 0 ≤ f ∧ f < 1 ∧
        deltaLimitClamp mach mb 0 = mb 0 * f ∧
        deltaLimitClamp mach mb 1 = mb 1 * f ∧
        deltaLimitClamp mach mb 0 * deltaLimitClamp mach mb 0 +
          deltaLimitClamp mach mb 1 * deltaLimitClamp mach mb 1 =
          mach.printRadiusSquared) ∧
    deltaLimitClamp mach mb 2 =
      max (mach.axisMinimum 2) (min (mb 2) mach.homedHeight) ∧
    mach.axisMinimum 2 ≤ deltaLimitClamp mach mb 2 ∧
    deltaLimitClamp mach mb 2 ≤ mach.homedHeight := by
  refine ⟨?_, ?_, ?_, ?_, ?_⟩
  · intro heq
    have hlt : ¬(mach.printRadiusSquared < mb 0 * mb 0 + mb 1 * mb 1) := by
      rw [heq]
      exact lt_irrefl _
    constructor <;> simp [deltaLimitClamp, hlt, fupd]
  · intro hlt
    have hd2pos : 0 < mb 0 * mb 0 + mb 1 * mb 1 := lt_of_le_of_lt hR2 hlt
    refine ⟨Real.sqrt (mach.printRadiusSquared / (mb 0 * mb 0 + mb 1 * mb 1)),
      Real.sqrt_nonneg _, ?_, ?_, ?_, ?_⟩
    · have hq : mach.printRadiusSquared / (mb 0 * mb 0 + mb 1 * mb 1) < 1 :=
        (div_lt_one hd2pos).mpr hlt
      calc Real.sqrt (mach.printRadiusSquared / (mb 0 * mb 0 + mb 1 * mb 1))
          < Real.sqrt 1 := by
            apply Real.sqrt_lt_sqrt (div_nonneg hR2 hd2pos.le) hq
        _ = 1 := Real.sqrt_one
    · simp [deltaLimitClamp, hlt, fupd, hsq]
    · simp [deltaLimitClamp, hlt, fupd, hsq]
    · have h0 : deltaLimitClamp mach mb 0 =
          mb 0 * Real.sqrt (mach.printRadiusSquared / (mb 0 * mb 0 + mb 1 * mb 1)) := by
        simp [deltaLimitClamp, hlt, fupd, hsq]
      have h1 : deltaLimitClamp mach mb 1 =
          mb 1 * Real.sqrt (mach.printRadiusSquared / (mb 0 * mb 0 + mb 1 * mb 1)) := by
        simp [deltaLimitClamp, hlt, fupd, hsq]
      rw [h0, h1]
      have hsqsq : Real.sqrt (mach.printRadiusSquared / (mb 0 * mb 0 + mb 1 * mb 1)) *
          Real.sqrt (mach.printRadiusSquared / (mb 0 * mb 0 + mb 1 * mb 1)) =
          mach.printRadiusSquared / (mb 0 * mb 0 + mb 1 * mb 1) :=
        Real.mul_self_sqrt (div_nonneg hR2 hd2pos.le)
      calc mb 0 * Real.sqrt (mach.printRadiusSquared / (mb 0 * mb 0 + mb 1 * mb 1)) *
            (mb 0 * Real.sqrt (mach.printRadiusSquared / (mb 0 * mb 0 + mb 1 * mb 1))) +
            mb 1 * Real.sqrt (mach.printRadiusSquared / (mb 0 * mb 0 + mb 1 * mb 1)) *
            (mb 1 * Real.sqrt (mach.printRadiusSquared / (mb 0 * mb 0 + mb 1 * mb 1)))
          = (mb 0 * mb 0 + mb 1 * mb 1) *
            (Real.sqrt (mach.printRadiusSquared / (mb 0 * mb 0 + mb 1 * mb 1)) *
              Real.sqrt (mach.printRadiusSquared / (mb 0 * mb 0 + mb 1 * mb 1))) := by
            ring
        _ = (mb 0 * mb 0 + mb 1 * mb 1) *
            (mach.printRadiusSquared / (mb 0 * mb 0 + mb 1 * mb 1)) := by rw [hsqsq]
        _ = mach.printRadiusSquared := by
            field_simp
  · simp [deltaLimitClamp, fupd]
    split_ifs <;> simp [fupd]
  · have h2 : deltaLimitClamp mach mb 2 =
        max (mach.axisMinimum 2) (min (mb 2) mach.homedHeight) := by
      simp [deltaLimitClamp, fupd]
      split_ifs <;> simp [fupd]
    rw [h2]
    exact le_max_left _ _
  · have h2 : deltaLimitClamp mach mb 2 =
        max (mach.axisMinimum 2) (min (mb 2) mach.homedHeight) := by
      simp [deltaLimitClamp, fupd]
      split_ifs <;> simp [fupd]
    rw [h2]
    exact max_le hzmm (min_le_right _ _)

/-- Fixture: XY target (3, 4) — radius 5 — and Z target 10. -/
noncomputable def mbW : Nat → ℝ := fun i => if i = 0 then 3 else if i = 1 then 4 else 10

/-- Fixture delta machine: print radius squared 25/4 (radius 5/2), homed
height 5, Z minimum 0, with the real square root as sqrtf. -/
noncomputable def machW : Machine ℝ :=
  { isDeltaMode := true, rolandActive := false
    axisMinimum := fun _ => 0, axisMaximum := fun _ => 200
    printRadiusSquared := 25 / 4, homedHeight := 5, sqrtf := Real.sqrt
    toolWarningsAllowed := true, zProbeDiveHeight := 5, zProbeTravelSpeed := 50
    zProbeStopHeight := 1, zProbeType := 1, probeSpeed := 2
    axisTotalLengthZ := 200 }

/-- C3 witness: the delta clamp at the concrete target (3, 4, 10) with print
radius 5/2 scales XY in to the print radius and clamps Z to the homed
height 5. -/
theorem c3_delta_soft_limits_witness :
    machW.sqrtf = Real.sqrt ∧ (0 : ℝ) ≤ machW.printRadiusSquared ∧
    machW.axisMinimum 2 ≤ machW.homedHeight ∧
    machW.printRadiusSquared < mbW 0 * mbW 0 + mbW 1 * mbW 1 ∧
    (∃ f : ℝ, 0 ≤ f ∧ f < 1 ∧
      deltaLimitClamp machW mbW 0 = mbW 0 * f ∧
      deltaLimitClamp machW mbW 1 = mbW 1 * f ∧
      deltaLimitClamp machW mbW 0 * deltaLimitClamp machW mbW 0 +
        deltaLimitClamp machW mbW 1 * deltaLimitClamp machW mbW 1 =
        machW.printRadiusSquared) ∧
    deltaLimitClamp machW mbW 2 = 5 := by
  have h := c3_delta_soft_limits machW mbW rfl
    (by norm_num [machW]) (by norm_num [machW])
  refine ⟨rfl, by norm_num [machW], by norm_num [machW],
    by norm_num [machW, mbW], h.2.1 (by norm_num [machW, mbW]), ?_⟩
  rw [h.2.2.1]
  norm_num [machW, mbW]

/-- The mass-storage lookups DoFileMacro performs to resolve a macro file
name (GCodes.cpp:772-811), and whether GetFileStore succeeds on the resolved
path. -/
structure MacroFileEnv where
  /-- StringStartsWith(fileName, FS_PREFIX) -/
  fsPrefixed : Bool
  /-- fileName[0] == the root path separator -/
  rootPathed : Bool
  /-- FileExists(GetSysDir(), fileName) -/
  inSysDir : Bool
  /-- FileExists(GetMacroDir(), fileName) -/
  inMacroDir : Bool
  /-- GetFileStore succeeds on the resolved path -/
  openOk : Bool
  /-- the FileStore handle when opened -/
  fileHandle : Nat

/-- GCodes::DoFileMacro (GCodes.cpp:729-838).  gb is the invoking channel;
fractionRead abstracts fileBeingPrinted.FractionRead().  The file-position
Seek on a nested macro (GCodes.cpp:824) is not represented because the
embedding keeps only file handles, not positions. -/
def doFileMacroStep (env : MacroFileEnv) (gb : Channel) (plannerIdle : Bool)
    (currentPos : Nat → K) (fractionRead : K) (s : GState K) :
    Bool × GState K × List Msg :=
  -- Can we run another macro file at this point?
  if s.doingFileMacroFlag ∧ gb ≠ Channel.fileMacro then
    (false, s, [])
  -- Are we returning from a macro?
  else if s.returningFromMacro then
    if gb = Channel.fileMacro ∨ some gb = s.macroSource then
      if ¬s.doingFileMacroFlag then
        (true,
          { s with
            returningFromMacro := false
            macroSource := none
            fractionOfFilePrinted :=
              if isRunning s then -1 else s.fractionOfFilePrinted }, [])
      else
        (true, { s with returningFromMacro := false }, [])
    else
      (false, s, [])
  else
    -- See if we can save the file progress and push some values on the stack
    let s0 :=
      if ¬s.doingFileMacroFlag ∧ s.fileBeingPrinted.isSome then
        { s with fractionOfFilePrinted := fractionRead }
      else s
    match pushState s0 plannerIdle currentPos with
    | (false, s1, ms) => (false, s1, ms)
    | (true, s1, ms) =>
      -- Then check if we can open the file
      let fileResult : Option Nat × List Msg :=
        if env.fsPrefixed then
          (if env.openOk then some env.fileHandle else none, [])
        else if env.rootPathed then
          (if env.openOk then some env.fileHandle else none, [])
        else if env.inSysDir then
          (if env.openOk then some env.fileHandle else none, [])
        else if env.inMacroDir then
          (if env.openOk then some env.fileHandle else none, [])
        else
          (none, [Msg.macroNotFoundError])
      match fileResult.1 with
      | none =>
        match popState s1 plannerIdle currentPos with
        | (_, s2, ms2) => (true, s2, ms ++ fileResult.2 ++ ms2)
      | some fh =>
        let s2 := { s1 with fileBeingPrinted := some fh }
        -- Deal with nested macros
        let s3 :=
          if gb = Channel.fileMacro then s2
          else { s2 with macroSource := some gb }
        -- Set some values so the macro file gets processed properly
        (false,
          { s3 with doingFileMacroFlag := true, lastMacroPosition := 0 },
          ms ++ fileResult.2)

lemma pushState_ok (s0 : GState K) (cp : Nat → K) (hma : s0.moveAvailable = false)
    (hsp : s0.stackPointer < STACK) :
    pushState s0 true cp =
      (true,
        { s0 with
          moveBuffer := cp
          stack := fun i =>
            if i = s0.stackPointer then
              { drivesRelative := s0.drivesRelative
                axesRelative := s0.axesRelative
                feedrate := cp DRIVES
                extruderPositions := s0.lastExtruderPosition
                doingFileMacroFlag := s0.doingFileMacroFlag
                fileSlot := s0.fileBeingPrinted }
            else s0.stack i
          stackPointer := s0.stackPointer + 1 }, []) := by
  simp [pushState, allMovesFinishedAndLoaded, hma, Nat.not_le.mpr hsp]

lemma pushPop_roundtrip (s0 : GState K) (cp : Nat → K)
    (hma : s0.moveAvailable = false) (hsp : s0.stackPointer < STACK) :
    (popState (pushState s0 true cp).2.1 true cp).1 = true ∧
    (popState (pushState s0 true cp).2.1 true cp).2.1.stackPointer =
      s0.stackPointer ∧
    (popState (pushState s0 true cp).2.1 true cp).2.1.doingFileMacroFlag =
      s0.doingFileMacroFlag ∧
    (popState (pushState s0 true cp).2.1 true cp).2.2 = [] := by
  rw [pushState_ok s0 cp hma hsp]
  simp [popState, allMovesFinishedAndLoaded, hma]

/-- C7 (amended: this DoFileMacro has no reportMissing parameter; a missing
macro file always produces an error message): invoking DoFileMacro — as the
tool-change sequence does for tpre/tpost macros (GCodes.cpp:5632-5665) — with
a plain macro file name that exists in neither the /sys nor the /macros
directory reports the macro-not-found error, completes (returns true), and
pops the state frame it pushed, leaving the stack depth unchanged. -/
theorem c7_missing_macro_reports_and_pops (env : MacroFileEnv) (gb : Channel)
    (cp : Nat → K) (fr : K) (s : GState K)
    (hdm : s.doingFileMacroFlag = false) (hrm : s.returningFromMacro = false)
    (h1 : env.fsPrefixed = false) (h2 : env.rootPathed = false)
    (h3 : env.inSysDir = false) (h4 : env.inMacroDir = false)
    (hma : s.moveAvailable = false) (hsp : s.stackPointer < STACK) :
    (doFileMacroStep env gb true cp fr s).1 = true ∧
    Msg.macroNotFoundError ∈ (doFileMacroStep env gb true cp fr s).2.2 ∧
    (doFileMacroStep env gb true cp fr s).2.1.stackPointer = s.stackPointer ∧
    (doFileMacroStep env gb true cp fr s).2.1.doingFileMacroFlag = false := by
  rcases hfb : s.fileBeingPrinted with _ | fh
  · have hpush := pushState_ok s cp hma hsp
    simp only [hma, hdm, hrm, hfb] at hpush
    simp [doFileMacroStep, hdm, hrm, h1, h2, h3, h4, hfb, hpush, popState,
      allMovesFinishedAndLoaded, hma]
  · have hma' : ({ s with fractionOfFilePrinted := fr } : GState K).moveAvailable
        = false := hma
    have hsp' : ({ s with fractionOfFilePrinted := fr } : GState K).stackPointer
        < STACK := hsp
    have hpush := pushState_ok { s with fractionOfFilePrinted := fr } cp hma' hsp'
    simp only [hma, hdm, hrm, hfb] at hpush
    simp [doFileMacroStep, hdm, hrm, h1, h2, h3, h4, hfb, hpush, popState,
      allMovesFinishedAndLoaded, hma]

/-- A macro-file environment in which the file is found nowhere. -/
def envMissing : MacroFileEnv :=
  { fsPrefixed := false, rootPathed := false, inSysDir := false
    inMacroDir := false, openOk := false, fileHandle := 0 }

/-- C7 witness: a missing macro invoked from the serial channel at the
default state reports the error and leaves the stack depth at 0. -/
theorem c7_missing_macro_reports_and_pops_witness :
    baseState.doingFileMacroFlag = false ∧ baseState.stackPointer < STACK ∧
    (doFileMacroStep envMissing Channel.serial true (fun _ => 0) 0
      baseState).1 = true ∧
    Msg.macroNotFoundError ∈ (doFileMacroStep envMissing Channel.serial true
      (fun _ => 0) 0 baseState).2.2 ∧
    (doFileMacroStep envMissing Channel.serial true (fun _ => 0) 0
      baseState).2.1.stackPointer = baseState.stackPointer := by
  have h := c7_missing_macro_reports_and_pops envMissing Channel.serial
    (fun _ => 0) 0 baseState rfl rfl rfl rfl rfl rfl rfl (by decide)
  exact ⟨rfl, by decide, h.1, h.2.1, h.2.2.1⟩

/-- C7 counterexample: the claimed silent reportMissing=false mode does not
exist in this code — DoFileMacro takes no such parameter and the
macro-not-found path (taken for the optional tool-change macros invoked at
GCodes.cpp:5636 and GCodes.cpp:5656) always emits the error message, never
silence. -/
theorem c7_counterexample_not_silent :
    (doFileMacroStep envMissing Channel.serial true (fun _ => 0) 0
      baseState).2.2 = [Msg.macroNotFoundError] ∧
    (doFileMacroStep envMissing Channel.serial true (fun _ => 0) 0
      baseState).2.2 ≠ [] := by
  refine ⟨rfl, ?_⟩
  rw [show (doFileMacroStep envMissing Channel.serial true (fun _ => 0) 0
    baseState).2.2 = [Msg.macroNotFoundError] from rfl]
  simp

/-- const EndstopChecks ZProbeActive = 1 << 15 (src/GCodes.h:34). -/
def ZProbeActive : Nat := 2 ^ 15

/-- GCodes::DoZProbe (GCodes.cpp:1277-1308) for a non-delta-probe Z probe
(zProbeType ≠ 5; type 5 delegates to Move::DoDeltaProbe, abstracted by
deltaProbeResult).  probeTriggeredLow abstracts GetZProbeResult() ==
EndStopHit::lowHit.  Returns -1 while in progress, 0 when the probe was
already triggered at the start, 1 on completion. -/
def doZProbe (mach : Machine K) (probeTriggeredLow plannerIdle : Bool)
    (currentPos : Nat → K) (deltaProbeResult : Int) (distance : K)
    (s : GState K) : Int × GState K × List Msg :=
  if mach.zProbeType = 5 then
    (deltaProbeResult, s, [])
  else if ¬s.cannedCycleMoveQueued ∧ probeTriggeredLow then
    (0, s, [])
  else
    let s1 :=
      { s with
        activeDrive := fun d =>
          if d ≤ DRIVES then (d = 2 ∨ d = DRIVES : Bool) else s.activeDrive d
        moveToDo := fupd (fupd s.moveToDo 2 (-distance)) DRIVES mach.probeSpeed }
    match doCannedCycleMove s1 ZProbeActive plannerIdle currentPos with
    | (true, s2, ms) => (1, s2, ms)
    | (false, s2, ms) => (-1, s2, ms)

/-- GCodes::DoSingleZProbeAtPoint (GCodes.cpp:1158-1247).  probeX/probeY
abstract GetProbeCoordinates; the SetZBedProbePoint calls into the Move class
are returned as a list of (point index, z, error-flag) records; the
SetPositions call on the not-yet-homed branch is external to this state.
Returns true when the whole cycle is complete. -/
def doSingleZProbeAtPoint (mach : Machine K) (probeTriggeredLow plannerIdle : Bool)
    (currentPos : Nat → K) (deltaProbeResult : Int) (probeX probeY : K)
    (probePointIndex : Nat) (heightAdjust : K) (s : GState K) :
    Bool × GState K × List Msg × List (Nat × K × Bool) :=
  let s0 := { s with
    activeDrive := fun d => if d ≤ DRIVES then false else s.activeDrive d }
  match s0.cannedCycleMoveCount with
  | 0 =>
    -- Raise Z
    let s1 := { s0 with
      moveToDo := fupd (fupd s0.moveToDo 2 mach.zProbeDiveHeight) DRIVES
        mach.zProbeTravelSpeed
      activeDrive := fun d =>
        if d = 2 ∨ d = DRIVES then true else s0.activeDrive d }
    match doCannedCycleMove s1 0 plannerIdle currentPos with
    | (true, s2, ms) =>
      (false, { s2 with cannedCycleMoveCount := s2.cannedCycleMoveCount + 1 },
        ms, [])
    | (false, s2, ms) => (false, s2, ms, [])
  | 1 =>
    -- Move to the correct XY coordinates
    let s1 := { s0 with
      moveToDo := fupd (fupd (fupd s0.moveToDo 0 probeX) 1 probeY) DRIVES
        mach.zProbeTravelSpeed
      activeDrive := fun d =>
        if d = 0 ∨ d = 1 ∨ d = DRIVES then true else s0.activeDrive d }
    match doCannedCycleMove s1 0 plannerIdle currentPos with
    | (true, s2, ms) =>
      (false, { s2 with cannedCycleMoveCount := s2.cannedCycleMoveCount + 1 },
        ms, [])
    | (false, s2, ms) => (false, s2, ms, [])
  | 2 =>
    -- Probe the bed
    let height : K :=
      if s0.axisIsHomed 2 then 2 * mach.zProbeDiveHeight
      else (11 / 10 : K) * mach.axisTotalLengthZ
    match doZProbe mach probeTriggeredLow plannerIdle currentPos
      deltaProbeResult height s0 with
    | (0, s1, ms) =>
      -- Z probe is already triggered at the start of the move: abandon the
      -- probe and record an error
      (false,
        { s1 with cannedCycleMoveCount := s1.cannedCycleMoveCount + 1 },
        ms ++ [Msg.probeAlreadyTriggeredWarning],
        [(probePointIndex, mach.zProbeDiveHeight, true)])
    | (1, s1, ms) =>
      if s1.axisIsHomed 2 then
        let z := s1.moveBuffer 2 - (mach.zProbeStopHeight + heightAdjust)
        (false,
          { s1 with
            lastProbedZ := z
            cannedCycleMoveCount := s1.cannedCycleMoveCount + 1 },
          ms, [(probePointIndex, z, false)])
      else
        (false,
          { s1 with
            moveBuffer := fupd s1.moveBuffer 2
              (mach.zProbeStopHeight + heightAdjust)
            axisIsHomed := fun a => if a = 2 then true else s1.axisIsHomed a
            lastProbedZ := 0
            cannedCycleMoveCount := s1.cannedCycleMoveCount + 1 },
          ms, [(probePointIndex, 0, false)])
    | (_, s1, ms) => (false, s1, ms, [])
  | 3 =>
    -- Raise the head
    let s1 := { s0 with
      moveToDo := fupd (fupd s0.moveToDo 2 mach.zProbeDiveHeight) DRIVES
        mach.zProbeTravelSpeed
      activeDrive := fun d =>
        if d = 2 ∨ d = DRIVES then true else s0.activeDrive d }
    match doCannedCycleMove s1 0 plannerIdle currentPos with
    | (true, s2, ms) => (true, { s2 with cannedCycleMoveCount := 0 }, ms, [])
    | (false, s2, ms) => (false, s2, ms, [])
  | _ => (true, { s0 with cannedCycleMoveCount := 0 }, [], [])

/-- C8: during a G30 single-point probe at the probing phase
(cannedCycleMoveCount = 2) with no canned move pending, if the Z probe is
already triggered at the start (GetZProbeResult() == lowHit, DoZProbe
returning 0), the sequence does not queue the probing move and does not
hang: it emits the probe-already-triggered warning, records the point as an
error point (error flag set), advances the phase counter to 3, and leaves
the move slot untouched; at phase 3, once the raising canned move has
drained, the cycle completes (returns true with the phase counter reset). -/
theorem c8_probe_triggered_at_start (mach : Machine K)
    (plannerIdle : Bool) (cp : Nat → K) (dpr : Int) (px py : K)
    (idx : Nat) (ha : K) (s : GState K)
    (hcount : s.cannedCycleMoveCount = 2) (hq : s.cannedCycleMoveQueued = false)
    (h5 : mach.zProbeType ≠ 5) :
    (doSingleZProbeAtPoint mach true plannerIdle cp dpr px py idx ha s).1 =
      false ∧
    (doSingleZProbeAtPoint mach true plannerIdle cp dpr px py idx
      ha s).2.1.cannedCycleMoveCount = 3 ∧
    (doSingleZProbeAtPoint mach true plannerIdle cp dpr px py idx ha s).2.2.2 =
      [(idx, mach.zProbeDiveHeight, true)] ∧
    Msg.probeAlreadyTriggeredWarning ∈
      (doSingleZProbeAtPoint mach true plannerIdle cp dpr px py idx
        ha s).2.2.1 ∧
    (doSingleZProbeAtPoint mach true plannerIdle cp dpr px py idx
      ha s).2.1.moveAvailable = s.moveAvailable ∧
    (doSingleZProbeAtPoint mach true plannerIdle cp dpr px py idx
      ha s).2.1.cannedCycleMoveQueued = false ∧
    (∀ s3 : GState K, s3.cannedCycleMoveCount = 3 →
      s3.cannedCycleMoveQueued = true → s3.moveAvailable = false →
      1 ≤ s3.stackPointer →
      (doSingleZProbeAtPoint mach true true cp dpr px py idx ha s3).1 = true ∧
      (doSingleZProbeAtPoint mach true true cp dpr px py idx
        ha s3).2.1.cannedCycleMoveCount = 0) := by
  refine ⟨?_, ?_, ?_, ?_, ?_, ?_, ?_⟩
  · simp [doSingleZProbeAtPoint, doZProbe, hcount, hq, h5]
  · simp [doSingleZProbeAtPoint, doZProbe, hcount, hq, h5]
  · simp [doSingleZProbeAtPoint, doZProbe, hcount, hq, h5]
  · simp [doSingleZProbeAtPoint, doZProbe, hcount, hq, h5]
  · simp [doSingleZProbeAtPoint, doZProbe, hcount, hq, h5]
  · simp [doSingleZProbeAtPoint, doZProbe, hcount, hq, h5]
  · intro s3 h3c h3q h3m h3sp
    have hlt : ¬s3.stackPointer < 1 := by omega
    constructor <;>
      simp [doSingleZProbeAtPoint, doCannedCycleMove, h3c, h3q, h3m, hlt,
        popState, allMovesFinishedAndLoaded]

/-- C8 witness: the probing phase at the concrete fixture machine with the
probe already triggered. -/
theorem c8_probe_triggered_at_start_witness :
    ({ baseState with cannedCycleMoveCount := 2 } : GState ℚ).cannedCycleMoveCount
      = 2 ∧
    mach0.zProbeType ≠ 5 ∧
    (doSingleZProbeAtPoint mach0 true true (fun _ => 0) 0 0 0 7 0
      { baseState with cannedCycleMoveCount := 2 }).1 = false ∧
    (doSingleZProbeAtPoint mach0 true true (fun _ => 0) 0 0 0 7 0
      { baseState with cannedCycleMoveCount := 2 }).2.1.cannedCycleMoveCount
      = 3 ∧
    (doSingleZProbeAtPoint mach0 true true (fun _ => 0) 0 0 0 7 0
      { baseState with cannedCycleMoveCount := 2 }).2.2.2 =
      [(7, mach0.zProbeDiveHeight, true)] := by
  have h := c8_probe_triggered_at_start mach0 true (fun _ => 0) 0 0 0 7 0
    { baseState with cannedCycleMoveCount := 2 } rfl rfl (by decide)
  exact ⟨rfl, by decide, h.1, h.2.1, h.2.2.1⟩

/-- const float INCH_TO_MM = 25.4 (src/Configuration.h:57). -/
def INCH_TO_MM {K : Type} [Field K] : K := 254 / 10

/-- The commands whose HandleGcode / HandleMcode case bodies write any of the
modal flags (axesRelative, drivesRelative, distanceScale) or run the stack
operations: G20 and G21 (GCodes.cpp:2654-2660), G90 and G91
(GCodes.cpp:2694-2704), M82 and M83 (GCodes.cpp:3388-3408), M120 and M121
(GCodes.cpp:3862-3868).  Scanning GCodes.cpp shows no other command handler
assigns these fields (the only remaining writes are Init and Pop). -/
inductive ModalCmd where
  | g20 | g21 | g90 | g91 | m82 | m83 | m120 | m121
  deriving DecidableEq

/-- The state effect of one modal command, translated case by case.  M120 and
M121 run Push and Pop (GCodes.cpp:3863 and 3867), which need the planner
inputs. -/
def modalStep (cmd : ModalCmd) (plannerIdle : Bool) (cp : Nat → K)
    (s : GState K) : GState K :=
  match cmd with
  | ModalCmd.g20 => { s with distanceScale := INCH_TO_MM }
  | ModalCmd.g21 => { s with distanceScale := 1 }
  | ModalCmd.g90 => { s with axesRelative := false }
  | ModalCmd.g91 => { s with axesRelative := true }
  | ModalCmd.m82 =>
    if s.drivesRelative then
      { s with
        lastExtruderPosition := fun e =>
          if e < DRIVES - AXES then 0 else s.lastExtruderPosition e
        drivesRelative := false }
    else s
  | ModalCmd.m83 =>
    if !s.drivesRelative then
      { s with
        lastExtruderPosition := fun e =>
          if e < DRIVES - AXES then 0 else s.lastExtruderPosition e
        drivesRelative := true }
    else s
  | ModalCmd.m120 => (pushState s plannerIdle cp).2.1
  | ModalCmd.m121 => (popState s plannerIdle cp).2.1

/-- C9 (amended: drivesRelative is directly assigned only by M82/M83, but a
stack Pop — M121, or the pops run on macro exit and print cancel — restores a
previously saved value, so it is not true that only M82/M83 ever change the
flag): G90 sets only the axes-relative flag to false and G91 sets only it to
true — the whole state is otherwise untouched, in particular the
drives-relative flag (the deliberate 2014-07-21 change commented at
GCodes.cpp:2695) — and none of G20/G21/G90/G91 ever changes drivesRelative,
while M82/M83 assign it directly. -/
theorem c9_g90_g91_axes_only (s : GState K) (plannerIdle : Bool)
    (cp : Nat → K) :
    modalStep ModalCmd.g90 plannerIdle cp s = { s with axesRelative := false } ∧
    modalStep ModalCmd.g91 plannerIdle cp s = { s with axesRelative := true } ∧
    (modalStep ModalCmd.g90 plannerIdle cp s).drivesRelative =
      s.drivesRelative ∧
    (modalStep ModalCmd.g91 plannerIdle cp s).drivesRelative =
      s.drivesRelative ∧
    (modalStep ModalCmd.g20 plannerIdle cp s).drivesRelative =
      s.drivesRelative ∧
    (modalStep ModalCmd.g21 plannerIdle cp s).drivesRelative =
      s.drivesRelative ∧
    (modalStep ModalCmd.m82 plannerIdle cp s).drivesRelative = false ∧
    (modalStep ModalCmd.m83 plannerIdle cp s).drivesRelative = true := by
  refine ⟨rfl, rfl, rfl, rfl, rfl, rfl, ?_, ?_⟩
  · by_cases h : s.drivesRelative <;> simp [modalStep, h]
  · by_cases h : s.drivesRelative <;> simp [modalStep, h]

/-- C9 witness: the conjunction at the default modal state. -/
theorem c9_g90_g91_axes_only_witness :
    modalStep ModalCmd.g90 true (fun _ => 0) baseState =
      { baseState with axesRelative := false } ∧
    (modalStep ModalCmd.g91 true (fun _ => 0) baseState).drivesRelative =
      baseState.drivesRelative :=
  ⟨(c9_g90_g91_axes_only baseState true (fun _ => 0)).1,
    (c9_g90_g91_axes_only baseState true (fun _ => 0)).2.2.2.1⟩

/-- The modal state just after M83; M120; M82: drives-relative is false and
the frame saved by M120 recorded it as true. -/
def c9State : GState ℚ :=
  { baseState with
    drivesRelative := false
    stackPointer := 1 }

/-- C9 counterexample: the claim that the drives-relative flag is changed
only by M82/M83 is false — M121 (Pop, GCodes.cpp:3866-3867 and 432-457)
restores the saved value: from a state with drivesRelative = false and a
stack frame holding drivesRelative = true (as left by M83; M120; M82), the
M121 step flips the flag back to true. -/
theorem c9_counterexample_m121_changes_drives_relative :
    c9State.drivesRelative = false ∧
    (modalStep ModalCmd.m121 true (fun _ => 0) c9State).drivesRelative =
      true := by
  constructor
  · rfl
  · simp [modalStep, popState, allMovesFinishedAndLoaded, c9State, baseState,
      frame0]

/-- const size_t CODE_QUEUE_LENGTH = 8 (src/GCodes.h:44): the number of
pre-allocated CodeQueueItem objects. -/
def CODE_QUEUE_LENGTH : Nat := 8

/-- One CodeQueueItem (GCodes.h:46-68): the release tag (moveToExecute), the
issuing channel (source) and the stored command text (abstract id). -/
structure QItem where
  tag : Nat
  src : Channel
  code : Nat
  deriving DecidableEq

/-- The code-queue related fields of GCodes (GCodes.h:227-231) together with
the queue channel occupancy: the linked list internalCodeQueue as a head-first
list, the length of the releasedQueueItems free chain, whether queueGCode is
Active, and the item last fed into queueGCode (with queueGCodeSource). -/
structure QState where
  totalMoves : Nat
  movesCompleted : Nat
  queue : List QItem
  freeItems : Nat
  queueChannelBusy : Bool
  queueChannelItem : Option QItem
  deriving DecidableEq

/-- The command letter found by ActOnCode in M-before-G-before-T priority. -/
inductive CodeKind where
  | gcode | mcode | tcode | invalid
  deriving DecidableEq

/-- The parts of a buffered command that the queueing logic reads. -/
structure QCommand where
  kind : CodeKind
  number : Int
  seenR : Bool
  seenS : Bool
  src : Channel
  code : Nat
  deriving DecidableEq

/-- GCodes::CanQueueCode (GCodes.cpp:2460-2507). -/
def canQueueCode (c : QCommand) : Bool :=
  match c.kind with
  | CodeKind.gcode => c.number = 10 ∧ (c.seenR ∨ c.seenS)
  | CodeKind.mcode =>
    c.number = 106 ∨ c.number = 107 ∨
    c.number = 104 ∨ c.number = 140 ∨ c.number = 141 ∨ c.number = 144 ∨
    c.number = 117 ∨ c.number = 300 ∨ c.number = 280 ∨ c.number = 420 ∨
    c.number = 126 ∨ c.number = 127 ∨
    c.number = 540 ∨ (550 ≤ c.number ∧ c.number ≤ 563) ∨
    (566 ≤ c.number ∧ c.number ≤ 573) ∨
    c.number = 906
  | _ => false

/-- GCodes::ActOnCode (GCodes.cpp:2512-2589) restricted to the queueing
decision.  When the code runs at once (executeImmediately, or no moves
pending, or not queueable) the dispatch through HandleGcode / HandleMcode /
HandleTcode is abstracted: the command is reported in the middle component
and handled stands for the handler's completion result.  Otherwise the code
is stored with the current totalMoves as its release tag
(newItem->Init(gb, totalMoves), GCodes.cpp:2572); when no released item is
free, the first queued item is force-fed into the queue channel to make room
(GCodes.cpp:2547-2567), or the call returns false when that channel is still
busy. -/
def actOnCode (c : QCommand) (executeImmediately handled : Bool)
    (st : QState) : Bool × Option QCommand × QState :=
  if executeImmediately ∨ st.totalMoves = st.movesCompleted ∨ ¬canQueueCode c then
    (handled, some c, st)
  else if st.freeItems = 0 then
    if st.queueChannelBusy then
      (false, none, st)
    else
      match st.queue with
      | [] => (false, none, st)
      | h :: rest =>
        (true, none,
          { st with
            queue := rest ++ [{ tag := st.totalMoves, src := c.src, code := c.code }]
            queueChannelBusy := true
            queueChannelItem := some h })
  else
    (true, none,
      { st with
        queue := st.queue ++ [{ tag := st.totalMoves, src := c.src, code := c.code }]
        freeItems := st.freeItems - 1 })

/-- The code-queue release step of GCodes::Spin (GCodes.cpp:256-271): when
the queue channel is idle and the head item's release tag has been reached by
the planner's completed-moves counter, the head is fed into the queue channel
together with its original source (queueGCodeSource, which HandleReply and
the tool-number adjustment treat as the issuer, GCodes.cpp:353 and the
gb == queueGCode redirection in HandleReply). -/
def spinQueueStep (st : QState) : QState :=
  match st.queue with
  | [] => st
  | h :: rest =>
    if ¬st.queueChannelBusy ∧ h.tag ≤ st.movesCompleted then
      { st with
        queue := rest
        freeItems := st.freeItems + 1
        queueChannelBusy := true
        queueChannelItem := some h }
    else st

/-- C4 (amended: the release-only-at-tag guarantee needs a free slot in the
deferred queue; when all CODE_QUEUE_LENGTH items are queued, ActOnCode
force-releases the oldest entry into the queue channel regardless of its tag
to make room, or retries later when that channel is busy): a queueable
command that is not flagged for immediate execution and is issued while moves
are pending is not executed at once — it is appended to the deferred queue
tagged with the current total-moves counter — and the Spin release step feeds
the queue head into the dedicated queue channel, carrying its original
issuer, exactly on a tick when the channel is idle and the completed-moves
counter has reached the tag; a command issued with no moves pending executes
immediately. -/
theorem c4_deferred_queue_release (c : QCommand) (handled : Bool) (st : QState)
    (hq : canQueueCode c = true) :
    (st.totalMoves = st.movesCompleted →
      actOnCode c false handled st = (handled, some c, st)) ∧
    (st.totalMoves ≠ st.movesCompleted → 0 < st.freeItems →
      actOnCode c false handled st =
        (true, none,
          { st with
            queue := st.queue ++ [{ tag := st.totalMoves, src := c.src, code := c.code }]
            freeItems := st.freeItems - 1 })) ∧
    (∀ h rest, st.queue = h :: rest →
      (st.queueChannelBusy = false → h.tag ≤ st.movesCompleted →
        spinQueueStep st =
          { st with
            queue := rest
            freeItems := st.freeItems + 1
            queueChannelBusy := true
            queueChannelItem := some h }) ∧
      (st.queueChannelBusy = true ∨ st.movesCompleted < h.tag →
        spinQueueStep st = st)) := by
  refine ⟨?_, ?_, ?_⟩
  · intro heq
    simp [actOnCode, heq]
  · intro hne hfree
    simp [actOnCode, hne, hq, Nat.pos_iff_ne_zero.mp hfree]
  · intro h rest hqueue
    constructor
    · intro hbusy htag
      simp [spinQueueStep, hqueue, hbusy, htag]
    · intro hcase
      rcases hcase with hbusy | htag
      · simp [spinQueueStep, hqueue, hbusy]
      · simp [spinQueueStep, hqueue, Nat.not_le.mpr htag]

/-- A full deferred queue: all 8 CodeQueueItems hold file-channel commands
with release tag 5 while only 0 moves have completed. -/
def c4FullState : QState :=
  { totalMoves := 7
    movesCompleted := 0
    queue := (List.range CODE_QUEUE_LENGTH).map
      fun i => { tag := 5, src := Channel.file, code := i }
    freeItems := 0
    queueChannelBusy := false
    queueChannelItem := none }

/-- A queueable M106 S128 fan command from the file channel. -/
def c4Cmd : QCommand :=
  { kind := CodeKind.mcode, number := 106, seenR := false, seenS := true
    src := Channel.file, code := 99 }

/-- C4 counterexample: with the deferred queue full (no free
CodeQueueItems) and the queue channel idle, queueing one more command makes
ActOnCode feed the oldest entry into the queue channel although its release
tag (5) is far beyond the completed-moves counter (0) — the entry is
released for execution on a tick when the planner's completed-moves counter
has NOT reached its tag, contradicting the claim as stated. -/
theorem c4_counterexample_full_queue_early_release :
    canQueueCode c4Cmd = true ∧
    c4FullState.totalMoves ≠ c4FullState.movesCompleted ∧
    (actOnCode c4Cmd false true c4FullState).2.2.queueChannelItem =
      some { tag := 5, src := Channel.file, code := 0 } ∧
    (actOnCode c4Cmd false true c4FullState).2.2.queueChannelBusy = true ∧
    c4FullState.movesCompleted < 5 := by
  decide

/-- One linked-list node of the internal code queue, for the pointer-level
model of the M25 purge loop. -/
structure PurgeNode where
  src : Channel
  tag : Nat
  deriving DecidableEq

/-- The M25 purge loop of HandleMcode case 25 (GCodes.cpp:3128-3148),
modelled at pointer level: head is internalCodeQueue, next the per-node
successor pointers, lastItem and item the loop variables.  Each iteration
with item = some i on a file-channel node whose ExecuteAtMove exceeds
totalMoves performs, in source order, nextItem = item->Next();
item->SetNext(internalCodeQueue); internalCodeQueue = item;
lastItem->SetNext(nextItem); item = nextItem.  The C loop always advances
through the next pointer captured before any rewiring, so it visits each node
of the original chain once; any fuel at least the original chain length makes
the model exact. -/
def purgeLoop (items : Nat → PurgeNode) (totalMoves : Nat) :
    Nat → Option Nat → (Nat → Option Nat) → Option Nat → Option Nat →
    Option Nat × (Nat → Option Nat)
  | 0, head, next, _, _ => (head, next)
  | _ + 1, head, next, _, none => (head, next)
  | fuel + 1, head, next, lastItem, some i =>
    if (items i).src = Channel.file ∧ totalMoves < (items i).tag then
      let nextItem := next i
      let next1 := fun j => if j = i then head else next j
      let next2 :=
        match lastItem with
        | some l => fun j => if j = l then nextItem else next1 j
        | none => next1
      purgeLoop items totalMoves fuel (some i) next2 lastItem nextItem
    else
      purgeLoop items totalMoves fuel head next (some i) (next i)

/-- The code-queue part of the user-initiated pause (HandleMcode case 25,
GCodes.cpp:3126-3148): totalMoves is first reduced by the moves the planner
skipped, then the loop above runs over the whole queue.  Returns the new
totalMoves, queue head and next map. -/
def pausePurgeQueue (items : Nat → PurgeNode) (totalMoves skippedMoves : Nat)
    (head : Option Nat) (next : Nat → Option Nat) (fuel : Nat) :
    Nat × Option Nat × (Nat → Option Nat) :=
  let tm := totalMoves - skippedMoves
  let r := purgeLoop items tm fuel head next none head
  (tm, r.1, r.2)

/-- The queue at pause time: a single entry issued by the file channel with
release tag 5. -/
def c5Items : Nat → PurgeNode := fun _ => { src := Channel.file, tag := 5 }

/-- C5: evaluating the purge at the failing input.  With one file-channel
entry of tag 5 at the head and totalMoves 5 reduced by 2 skipped moves to 3,
the entry is orphaned (3 < 5), yet after the purge it is still the queue
head and now points at itself: the loop body prepends the node to
internalCodeQueue (item->SetNext(internalCodeQueue); internalCodeQueue =
item, GCodes.cpp:3134-3135) instead of moving it to releasedQueueItems as
the other removal sites do (GCodes.cpp:267-270, 2563-2566, 5684-5687), so
the orphaned entry is not removed — contradicting both the claim and the
code's own comment (purge orphaned entries). -/
theorem c5_purge_leaves_orphan_queued :
    (pausePurgeQueue c5Items 5 2 (some 0) (fun _ => none) 1).1 = 3 ∧
    3 < (c5Items 0).tag ∧
    (c5Items 0).src = Channel.file ∧
    (pausePurgeQueue c5Items 5 2 (some 0) (fun _ => none) 1).2.1 = some 0 ∧
    (pausePurgeQueue c5Items 5 2 (some 0) (fun _ => none) 1).2.2 0 = some 0 := by
  refine ⟨rfl, by decide, rfl, rfl, rfl⟩

/-- A queue state with moves pending and all 8 items free. -/
def c4IdleState : QState :=
  { totalMoves := 4
    movesCompleted := 1
    queue := []
    freeItems := CODE_QUEUE_LENGTH
    queueChannelBusy := false
    queueChannelItem := none }

/-- C4 witness: the concrete M106 deferred while 3 moves are pending. -/
theorem c4_deferred_queue_release_witness :
    canQueueCode c4Cmd = true ∧
    c4IdleState.totalMoves ≠ c4IdleState.movesCompleted ∧
    0 < c4IdleState.freeItems ∧
    actOnCode c4Cmd false true c4IdleState =
      (true, none,
        { c4IdleState with
          queue := c4IdleState.queue ++
            [{ tag := c4IdleState.totalMoves, src := c4Cmd.src, code := c4Cmd.code }]
          freeItems := c4IdleState.freeItems - 1 }) :=
  ⟨by decide, by decide, by decide,
    (c4_deferred_queue_release c4Cmd true c4IdleState (by decide)).2.1
      (by decide) (by decide)⟩

/-- One call of GCodes::advanceHash (GCodes.cpp:5780-5800) while a hash is in
progress.  When the file position has reached the file length, hashing is
finished (none).  Otherwise FileStore::Read fills the stack buffer with
bytesRead = min(blockSize, length - position) file bytes (FileStore.cpp:
191-211, FatFs f_read semantics) — but SHA1Input is then fed the full
blockSize bytes of the buffer regardless of bytesRead (GCodes.cpp:5795-5797),
so past end of file the uninitialised rest of the buffer (junk) is hashed
too.  blockSize stands for FILE_HASH_BLOCK_SIZE, whose definition is outside
this tree.  Returns the new file position and the block fed to the SHA-1
state. -/
def advanceHash (blockSize : Nat) (contents : List Nat) (junk : Nat → Nat)
    (pos : Nat) : Option (Nat × List Nat) :=
  if contents.length ≤ pos then none
  else
    let bytesRead := min blockSize (contents.length - pos)
    some (pos + bytesRead,
      (contents.drop pos).take bytesRead ++
        (List.range (blockSize - bytesRead)).map junk)

/-- Iterating advanceHash from position pos with the given fuel: the byte
stream folded into the SHA-1 state.  The digest that reportHash
(GCodes.cpp:5802-5819) emits is the SHA-1 of this stream.  Each call
consumes at least one byte when 0 < blockSize, so fuel = contents.length
suffices from position 0. -/
def hashStreamAux (blockSize : Nat) (contents : List Nat) (junk : Nat → Nat) :
    Nat → Nat → List Nat
  | 0, _ => []
  | fuel + 1, pos =>
    match advanceHash blockSize contents junk pos with
    | none => []
    | some r => r.2 ++ hashStreamAux blockSize contents junk fuel r.1

/-- The whole byte stream hashed for a file, starting at position 0. -/
def hashStream (blockSize : Nat) (contents : List Nat) (junk : Nat → Nat) :
    List Nat :=
  hashStreamAux blockSize contents junk contents.length 0

lemma hashStreamAux_of_dvd (B : Nat) (contents : List Nat) (junk : Nat → Nat)
    (hB : 0 < B) (fuel pos : Nat) (hfuel : contents.length - pos ≤ fuel)
    (hdvd : B ∣ contents.length - pos) :
    hashStreamAux B contents junk fuel pos = contents.drop pos := by
  induction fuel generalizing pos with
  | zero =>
    have : contents.length - pos = 0 := Nat.le_zero.mp hfuel
    rw [hashStreamAux, List.drop_eq_nil_of_le (by omega)]
  | succ fuel ih =>
    by_cases hend : contents.length ≤ pos
    · rw [hashStreamAux, advanceHash, if_pos hend,
        List.drop_eq_nil_of_le hend]
    · push_neg at hend
      have hrem : 0 < contents.length - pos := by omega
      have hge : B ≤ contents.length - pos := by
        rcases hdvd with ⟨k, hk⟩
        rcases Nat.eq_zero_or_pos k with hk0 | hk0
        · subst hk0
          simp at hk
          omega
        · calc B = B * 1 := (Nat.mul_one B).symm
            _ ≤ B * k := Nat.mul_le_mul_left B hk0
            _ = contents.length - pos := hk.symm
      have hmin : min B (contents.length - pos) = B := Nat.min_eq_left hge
      rw [hashStreamAux, advanceHash, if_neg (by omega)]
      simp only [hmin, Nat.sub_self, List.range_zero, List.map_nil,
        List.append_nil]
      have hdvd' : B ∣ contents.length - (pos + B) := by
        rcases hdvd with ⟨k, hk⟩
        have hkpos : 0 < k := by
          rcases Nat.eq_zero_or_pos k with h0 | h0
          · subst h0
            simp at hk
            omega
          · exact h0
        have hmul : B * (k - 1) = B * k - B := by
          cases k with
          | zero => omega
          | succ n =>
            simp [Nat.mul_succ, Nat.succ_sub_one]
        exact ⟨k - 1, by omega⟩
      rw [ih (pos + B) (by omega) hdvd']
      rw [← List.drop_drop]
      exact List.take_append_drop B (contents.drop pos)

lemma hashStreamAux_length_dvd (B : Nat) (contents : List Nat)
    (junk : Nat → Nat) (fuel pos : Nat) :
    B ∣ (hashStreamAux B contents junk fuel pos).length := by
  induction fuel generalizing pos with
  | zero => simp [hashStreamAux]
  | succ fuel ih =>
    by_cases hend : contents.length ≤ pos
    · simp [hashStreamAux, advanceHash, hend]
    · push_neg at hend
      have hmin : min B (contents.length - pos) ≤ B := Nat.min_le_left _ _
      have hstep : hashStreamAux B contents junk (fuel + 1) pos =
          ((contents.drop pos).take (min B (contents.length - pos)) ++
            (List.range (B - min B (contents.length - pos))).map junk) ++
          hashStreamAux B contents junk fuel
            (pos + min B (contents.length - pos)) := by
        rw [hashStreamAux, advanceHash, if_neg (by omega)]
      have hlen : ((contents.drop pos).take (min B (contents.length - pos)) ++
          (List.range (B - min B (contents.length - pos))).map junk).length = B := by
        simp only [List.length_append, List.length_take, List.length_drop,
          List.length_map, List.length_range]
        omega
      rw [hstep, List.length_append, hlen]
      rcases ih (pos + min B (contents.length - pos)) with ⟨k, hk⟩
      rw [hk]
      exact ⟨1 + k, by ring⟩

/-- C10: each advanceHash call made while the file position is before the
file length reads min(FILE_HASH_BLOCK_SIZE, remaining) bytes but folds
exactly FILE_HASH_BLOCK_SIZE bytes of its stack buffer into the SHA-1
state; consequently the byte stream fed to SHA-1 across the whole run —
whose SHA-1 is the digest reportHash emits — equals the file's byte contents
exactly when the file length is a multiple of FILE_HASH_BLOCK_SIZE (for any
other length the hashed stream is the contents padded with uninitialised
buffer bytes to a block multiple, so the digest is the SHA-1 of a different
byte string). -/
theorem c10_hash_block_granularity (B : Nat) (contents : List Nat)
    (junk : Nat → Nat) (hB : 0 < B) :
    (∀ pos, pos < contents.length →
      ∃ r, advanceHash B contents junk pos = some r ∧
        r.2.length = B ∧ r.1 = pos + min B (contents.length - pos)) ∧
    (hashStream B contents junk = contents ↔ B ∣ contents.length) := by
  constructor
  · intro pos hpos
    refine ⟨(pos + min B (contents.length - pos),
      (contents.drop pos).take (min B (contents.length - pos)) ++
        (List.range (B - min B (contents.length - pos))).map junk),
      ?_, ?_, rfl⟩
    · rw [advanceHash, if_neg (by omega)]
    · have hmin : min B (contents.length - pos) ≤ B := Nat.min_le_left _ _
      simp only [List.length_append, List.length_take, List.length_drop,
        List.length_map, List.length_range]
      omega
  · constructor
    · intro heq
      have := hashStreamAux_length_dvd B contents junk contents.length 0
      rw [show hashStreamAux B contents junk contents.length 0 =
        hashStream B contents junk from rfl, heq] at this
      exact this
    · intro hdvd
      have := hashStreamAux_of_dvd B contents junk hB contents.length 0
        (by omega) (by simpa using hdvd)
      simpa [hashStream] using this

/-- C10 witness: block size 2 on the 3-byte file [1, 2, 3] with junk byte 9 —
each in-progress call folds 2 bytes, and the hashed stream is [1, 2, 3, 9],
not the file contents, matching 2 not dividing 3. -/
theorem c10_hash_block_granularity_witness :
    (0 : Nat) < 2 ∧
    hashStream 2 [1, 2, 3] (fun _ => 9) = [1, 2, 3, 9] ∧
    ¬(2 : Nat) ∣ ([1, 2, 3] : List Nat).length ∧
    hashStream 2 [1, 2, 3] (fun _ => 9) ≠ [1, 2, 3] := by
  refine ⟨by decide, by decide, by decide, ?_⟩
  intro h
  exact absurd ((c10_hash_block_granularity 2 [1, 2, 3] (fun _ => 9)
    (by decide)).2.mp h) (by decide)

end RRF
